import Mathlib

/-!
Verification of the merethread thread-lifecycle library.

This file shallowly embeds the lifecycle state machine of
merethread/thread.py, merethread/task.py and merethread/daemon.py.
A thread is modelled by an explicit record of its lifecycle fields; the
Python run() wrapper becomes a pure function from the state and the
behaviour of the main body to the terminal state.  Exceptions are an
explicit inductive type and raising is modelled with Except.  Wall-clock
time is an integer field of the state; an Event.wait is modelled by an
explicit environment choice of whether the stop event gets set during
the wait.
-/

namespace Merethread

/-- Exceptions relevant to the merethread lifecycle.  threadStop models the
internal class ThreadStop of thread.py, expired models its subclass
Expired of task.py, cancelledError the stdlib CancelledError,
timeoutError the stdlib TimeoutError, attributeError the stdlib
AttributeError, and other tags any other user exception. -/
inductive Exc where
  | threadStop
  | expired
  | cancelledError
  | timeoutError
  | attributeError
  | other (n : Nat)
deriving DecidableEq, Repr

/-- Which exceptions are instances of the internal stop-signal class
(class Expired is declared as a subclass of the stop-signal class). -/
def isThreadStop : Exc → Bool
  | .threadStop => true
  | .expired => true
  | _ => false

/-- The ThreadStatus enum of thread.py. -/
inductive ThreadStatus where
  | not_started
  | running
  | stopping
  | stopped
  | aborted
  | cancelled
  | stopped_before_starting
deriving DecidableEq, Repr

deriving instance DecidableEq for Except

/-- The lifecycle state of one managed thread.  started and aliveDone model
the native started event and the end of run(); stoppingEvent and stopReason
model the stopping event and the recorded stop reason; result, exception
and futureResolved model the private result and exception attributes and
the resolution of the bound future (none while unresolved; the future can
never be externally cancelled because ThreadFuture.cancel always raises).
expired and prematureExit are the extra flags of the expiring-task and
daemon subclasses.  nowT is the wall clock and expiry the resolved
absolute deadline of an expiring task. -/
structure TState where
  started : Bool := false
  aliveDone : Bool := false
  stoppingEvent : Bool := false
  stopReason : Option String := none
  result : Option Int := none
  exception : Option Exc := none
  futureResolved : Option (Except Exc (Option Int)) := none
  expired : Bool := false
  prematureExit : Bool := false
  nowT : Int := 0
  expiry : Int := 0
deriving DecidableEq, Repr

/-- A freshly constructed thread. -/
def initState : TState := {}

/-- Thread.is_started. -/
def is_started (s : TState) : Bool := s.started

/-- threading.Thread.is_alive: started and run() not yet finished. -/
def is_alive (s : TState) : Bool := s.started && !s.aliveDone

/-- Thread.is_stopping. -/
def is_stopping (s : TState) : Bool := s.stoppingEvent && is_alive s

/-- Thread.is_stopped. -/
def is_stopped (s : TState) : Bool := is_started s && !is_alive s

/-- Thread.is_aborted. -/
def is_aborted (s : TState) : Bool := s.exception.isSome && !is_alive s

/-- Thread.status. -/
def thread_status (s : TState) : ThreadStatus :=
  if !is_started s then
    if s.stoppingEvent then ThreadStatus.stopped_before_starting
    else ThreadStatus.not_started
  else if is_alive s then
    if s.stoppingEvent then ThreadStatus.stopping else ThreadStatus.running
  else if is_aborted s then ThreadStatus.aborted
  else ThreadStatus.stopped

/-- Thread.request_stop: unconditionally records the reason and sets the
stopping event. -/
def request_stop (s : TState) (reason : Option String) : TState :=
  { s with stopReason := reason, stoppingEvent := true }

/-- Thread.sleep.  The stopping event wait returns true if the event is
already set; the environment parameter stopDuring says whether another
thread sets the event during the wait.  On a full wait the clock advances
by the timeout; an early wake-up is modelled as instantaneous. -/
def thread_sleep (s : TState) (stopDuring : Bool) (timeout : Int) :
    TState × Except Exc Unit :=
  if s.stoppingEvent then (s, Except.error Exc.threadStop)
  else if stopDuring then
    ({ s with stoppingEvent := true }, Except.error Exc.threadStop)
  else ({ s with nowT := s.nowT + timeout }, Except.ok ())

/-- Thread.stop_if_requested: a sleep of zero with no concurrent stop. -/
def stop_if_requested (s : TState) : TState × Except Exc Unit :=
  thread_sleep s false 0

/-- TaskThread.cancel. -/
def cancel (s : TState) (reason : Option String) : TState :=
  if is_stopped s || s.stoppingEvent then s
  else request_stop s (some (reason.getD "cancelled"))

/-- TaskThread.is_cancelled. -/
def is_cancelled (s : TState) : Bool :=
  is_stopped s && s.stoppingEvent

/-- TaskThread.status. -/
def task_status (s : TState) : ThreadStatus :=
  if is_cancelled s then ThreadStatus.cancelled else thread_status s

/-- DaemonThread.stop. -/
def daemon_stop (s : TState) (reason : Option String) : TState :=
  request_stop s reason

/-- The overridable hooks of one concrete thread class.  Each hook takes
the state and returns the new state together with a normal return value or
a raised exception, mirroring the hook protocol of thread.py.  The value
returned by onThreadStop is the Python return value of that hook (run()
ignores it). -/
structure ClsSpec where
  onEnter : TState → TState × Except Exc Unit
  onThreadStop : TState → Exc → TState × Except Exc (Option Int)
  handleStopBeforeStart : TState → TState × Except Exc Unit
  onAbort : TState → Exc → TState
  onExit : TState → TState

/-- The try-block of Thread.run: if no stop was requested before starting,
run onEnter then the main body; otherwise run the stop-before-start hook
(whose clean return leaves the local result variable at None). -/
def run_body (cls : ClsSpec) (mainF : TState → TState × Except Exc (Option Int))
    (s : TState) : TState × Sum (Option Int) Exc :=
  if !s.stoppingEvent then
    match cls.onEnter s with
    | (s1, Except.ok _) =>
      match mainF s1 with
      | (s2, Except.ok r) => (s2, Sum.inl r)
      | (s2, Except.error e) => (s2, Sum.inr e)
    | (s1, Except.error e) => (s1, Sum.inr e)
  else
    match cls.handleStopBeforeStart s with
    | (s1, Except.ok _) => (s1, Sum.inl none)
    | (s1, Except.error e) => (s1, Sum.inr e)

/-- The except and finally blocks of Thread.run.  A stop signal is routed
to onThreadStop, whose return value is discarded and whose raised
exception is captured; any other exception is captured directly.  Then the
private result or exception attribute is set, onAbort runs on the error
path, the future is resolved (it can never have been cancelled), onExit
runs, and the thread stops being alive. -/
def run_finish (cls : ClsSpec) (p : TState × Sum (Option Int) Exc) : TState :=
  let step : TState × Option Int × Option Exc :=
    match p.2 with
    | Sum.inl r => (p.1, r, none)
    | Sum.inr e =>
      if isThreadStop e then
        match cls.onThreadStop p.1 e with
        | (s2, Except.ok _) => (s2, none, none)
        | (s2, Except.error e2) => (s2, none, some e2)
      else (p.1, none, some e)
  let s1 := step.1
  let res := step.2.1
  let exc := step.2.2
  let s3 :=
    match exc with
    | some e => cls.onAbort { s1 with exception := some e } e
    | none => { s1 with result := res }
  let s4 := { s3 with
    futureResolved := some (match exc with
      | some e => Except.error e
      | none => Except.ok res) }
  { cls.onExit s4 with aliveDone := true }

/-- Thread.run. -/
def run (cls : ClsSpec) (mainF : TState → TState × Except Exc (Option Int))
    (s : TState) : TState :=
  run_finish cls (run_body cls mainF s)

/-- Thread.start marks the thread started; the spawned unit then executes
run. -/
def start (s : TState) : TState := { s with started := true }

/-- The hook defaults of the Thread base class: onEnter, onExit and
onAbort only log; onThreadStop logs and returns None so the thread exits
cleanly; the stop-before-start hook logs and returns. -/
def baseCls : ClsSpec where
  onEnter := fun s => (s, Except.ok ())
  onThreadStop := fun s _ => (s, Except.ok none)
  handleStopBeforeStart := fun s => (s, Except.ok ())
  onAbort := fun s _ => s
  onExit := fun s => s

/-- TaskThread hooks: onThreadStop raises CancelledError after the logging
of the base hook; the stop-before-start hook raises the stop signal so that
onThreadStop runs. -/
def taskCls : ClsSpec :=
  { baseCls with
    onThreadStop := fun s _ => (s, Except.error Exc.cancelledError)
    handleStopBeforeStart := fun s => (s, Except.error Exc.threadStop) }

/-- ExpiringTaskThread.check_expiry. -/
def check_expiry (s : TState) : Except Exc Unit :=
  if s.expiry ≤ s.nowT then Except.error Exc.expired else Except.ok ()

/-- ExpiringTaskThread.onEnter for a numeric expiry of dur seconds:
resolve the deadline relative to now at start, then check it. -/
def expiring_on_enter (dur : Int) (s : TState) : TState × Except Exc Unit :=
  let s1 := { s with expiry := s.nowT + dur }
  (s1, check_expiry s1)

/-- ExpiringTaskThread.onThreadStop: on the expired variant of the stop
signal, mark expired and delegate to the onExpiry hook, returning its
value; any other stop signal falls through to the TaskThread hook. -/
def expiring_on_thread_stop (onExpiry : TState → TState × Except Exc (Option Int))
    (s : TState) (e : Exc) : TState × Except Exc (Option Int) :=
  if e = Exc.expired then
    let s1 := { s with expired := true }
    onExpiry s1
  else taskCls.onThreadStop s e

/-- ExpiringTaskThread.sleep: raise expired if the deadline has passed;
clamp the timeout so the wait does not overshoot the deadline, remembering
whether the clamp was active; sleep; if the clamp was active raise expired
after the sleep, else re-check the deadline. -/
def expiring_sleep (s : TState) (stopDuring : Bool) (timeout : Int) :
    TState × Except Exc Unit :=
  match check_expiry s with
  | Except.error e => (s, Except.error e)
  | Except.ok _ =>
    let maxTimeout := s.expiry - s.nowT
    if timeout > maxTimeout then
      match thread_sleep s stopDuring (max 0 maxTimeout) with
      | (s1, Except.error e) => (s1, Except.error e)
      | (s1, Except.ok _) => (s1, Except.error Exc.expired)
    else
      match thread_sleep s stopDuring timeout with
      | (s1, Except.error e) => (s1, Except.error e)
      | (s1, Except.ok _) => (s1, check_expiry s1)

/-- An expiring task class with the given expiry duration and onExpiry
hook. -/
def expiringCls (dur : Int) (onExpiry : TState → TState × Except Exc (Option Int)) :
    ClsSpec :=
  { taskCls with
    onEnter := expiring_on_enter dur
    onThreadStop := expiring_on_thread_stop onExpiry }

/-- LimitedTimeTaskThread: onExpiry finishes successfully with None. -/
def limitedTimeCls (dur : Int) : ClsSpec :=
  expiringCls dur (fun s => (s, Except.ok none))

/-- TimeoutTaskThread: onExpiry raises TimeoutError. -/
def timeoutCls (dur : Int) : ClsSpec :=
  expiringCls dur (fun s => (s, Except.error Exc.timeoutError))

/-- DaemonThread.onExit: if a stop is in progress everything is fine,
otherwise flag the premature exit and run the premature-exit hook, which
records the reason premature when no reason was recorded. -/
def daemon_on_exit (s : TState) : TState :=
  if is_stopping s then s
  else
    let s1 := { s with prematureExit := true }
    if s1.stopReason = none then { s1 with stopReason := some "premature" } else s1

/-- DaemonThread hooks: only onExit is overridden (onError lives inside
the main loop, not in the run wrapper). -/
def daemonCls : ClsSpec :=
  { baseCls with onExit := daemon_on_exit }

/-- One guarded round of the DaemonThread.main loop: run the iteration
hook; re-raise a stop signal; hand any other exception to the onError
policy. -/
def daemon_iter_guard (iter : TState → TState × Except Exc Unit)
    (onError : TState → Exc → TState × Except Exc Unit) (s : TState) :
    TState × Except Exc Unit :=
  match iter s with
  | (s1, Except.ok _) => (s1, Except.ok ())
  | (s1, Except.error e) =>
    if isThreadStop e then (s1, Except.error e)
    else onError s1 e

/-- EventLoopThread.main_iteration: read the next event; an exception from
the reader propagates to the daemon loop; a None event yields back to the
loop; otherwise handle the event, re-raising a stop signal and handing any
other exception to the per-event onEventError policy. -/
def event_main_iter (readNext : TState → TState × Except Exc (Option Nat))
    (handleEvent : TState → Nat → TState × Except Exc Unit)
    (onEventError : TState → Nat → Exc → TState × Except Exc Unit)
    (s : TState) : TState × Except Exc Unit :=
  match readNext s with
  | (s1, Except.error e) => (s1, Except.error e)
  | (s1, Except.ok none) => (s1, Except.ok ())
  | (s1, Except.ok (some ev)) =>
    match handleEvent s1 ev with
    | (s2, Except.ok _) => (s2, Except.ok ())
    | (s2, Except.error e) =>
      if isThreadStop e then (s2, Except.error e)
      else onEventError s2 ev e

/-- ThreadFuture.add_callback and add_errback both call a method named
get_result on the future.  Neither ThreadFuture nor the stdlib Future
defines any such method (the accessor is named result), so the attribute
lookup raises AttributeError. -/
def future_get_result (_f : Except Exc (Option Int)) : Except Exc (Option Int) :=
  Except.error Exc.attributeError

/-- The wrapper add_callback registers: if getting the result raises, do
nothing, else invoke the callback with the result.  Returns the argument
the callback is invoked with, or none when it is not invoked. -/
def add_callback_invocation (f : Except Exc (Option Int)) : Option (Option Int) :=
  match future_get_result f with
  | Except.error _ => none
  | Except.ok r => some r

/-- The wrapper add_errback registers: if getting the result raises e,
invoke the errback with e, else do nothing.  Returns the exception the
errback is invoked with, or none when it is not invoked. -/
def add_errback_invocation (f : Except Exc (Option Int)) : Option Exc :=
  match future_get_result f with
  | Except.ok _ => none
  | Except.error e => some e

/-- A task body: first an arbitrary stretch of work bodyPre (during which
another thread may request a stop), then a cooperative checkpoint, then a
distinctive return value if the checkpoint passes. -/
def checkpoint_main (bodyPre : TState → TState) (s : TState) :
    TState × Except Exc (Option Int) :=
  let s1 := bodyPre s
  match stop_if_requested s1 with
  | (s2, Except.error e) => (s2, Except.error e)
  | (s2, Except.ok _) => (s2, Except.ok (some 99))

/-- A main body that returns 42 immediately. -/
def noop_main (s : TState) : TState × Except Exc (Option Int) :=
  (s, Except.ok (some 42))

/-- An onExpiry hook returning the distinctive value 42. -/
def on_expiry_42 (s : TState) : TState × Except Exc (Option Int) :=
  (s, Except.ok (some 42))

/-- A running expiring task that has slept none of its five seconds yet. -/
def c5_state : TState := { initState with started := true, expiry := 5 }

/-- A body only touches its own data: it never alters the private
lifecycle fields started, aliveDone and prematureExit of its thread. -/
def preserves_lifecycle (mainF : TState → TState × Except Exc (Option Int)) : Prop :=
  ∀ s : TState, (mainF s).1.started = s.started ∧ (mainF s).1.aliveDone = s.aliveDone ∧
    (mainF s).1.prematureExit = s.prematureExit

/-- The body of a limited-time task that works for ten time units, is
cancelled by another thread, and then reaches its sleep checkpoint after
its deadline has already passed. -/
def c9_main (s : TState) : TState × Except Exc (Option Int) :=
  let s1 := { s with nowT := s.nowT + 10 }
  let s2 := cancel s1 none
  match expiring_sleep s2 false 5 with
  | (s3, Except.error e) => (s3, Except.error e)
  | (s3, Except.ok _) => (s3, Except.ok (some 7))

/-- Claim C1: a TaskThread whose stop is requested while the body runs and
that reaches a cooperative checkpoint terminates with status cancelled and
a CancelledError captured as its exception, never in the plain stopped
status. -/
theorem c1_cancel_while_running (s0 : TState) (bodyPre : TState → TState)
    (hflag0 : s0.stoppingEvent = false)
    (hps : (bodyPre (start s0)).started = true)
    (hreq : (bodyPre (start s0)).stoppingEvent = true) :
    task_status (run taskCls (checkpoint_main bodyPre) (start s0)) = ThreadStatus.cancelled ∧
    (run taskCls (checkpoint_main bodyPre) (start s0)).exception = some Exc.cancelledError ∧
    task_status (run taskCls (checkpoint_main bodyPre) (start s0)) ≠ ThreadStatus.stopped := by
  simp only [start, hflag0] at hps hreq
  simp [run, run_body, run_finish, checkpoint_main, stop_if_requested, thread_sleep,
    taskCls, baseCls, task_status, is_cancelled, is_stopped, is_started, is_alive,
    is_aborted, thread_status, start, isThreadStop, hflag0, hreq, hps]

/-- Claim C1 witness: a concrete task whose body observes a stop request
at its checkpoint ends cancelled with a CancelledError. -/
theorem c1_witness :
    task_status (run taskCls (checkpoint_main (fun s => request_stop s (some "x")))
      (start initState)) = ThreadStatus.cancelled ∧
    (run taskCls (checkpoint_main (fun s => request_stop s (some "x")))
      (start initState)).exception = some Exc.cancelledError :=
  ⟨(c1_cancel_while_running initState (fun s => request_stop s (some "x")) rfl rfl rfl).1,
   (c1_cancel_while_running initState (fun s => request_stop s (some "x")) rfl rfl rfl).2.1⟩

/-- Claim C2 counterexample: two request_stop calls with different reasons
do not leave the reason of the first call; the second call overwrites the
recorded reason. -/
theorem c2_counterexample :
    ¬ ((request_stop (request_stop initState (some "first")) (some "second")).stopReason
        = (request_stop initState (some "first")).stopReason) := by
  decide

/-- Claim C2 amended: cancel is idempotent and its first reason wins,
because a second call returns early once the stopping event is set; a
repeated request_stop leaves the stop flag identical but overwrites the
recorded reason, so for request_stop the last reason wins, not the
first. -/
theorem c2_amended (s : TState) (r1 r2 : Option String) :
    cancel (cancel s r1) r2 = cancel s r1 ∧
    (cancel (cancel s r1) r2).stopReason = (cancel s r1).stopReason ∧
    (request_stop (request_stop s r1) r2).stoppingEvent
      = (request_stop s r1).stoppingEvent ∧
    (request_stop (request_stop s r1) r2).stopReason = r2 := by
  have hidem : cancel (cancel s r1) r2 = cancel s r1 := by
    by_cases h : (is_stopped s || s.stoppingEvent) = true
    · simp [cancel, h]
    · simp [cancel, h, request_stop]
  exact ⟨hidem, by rw [hidem], rfl, rfl⟩

/-- Claim C3: a task whose body returns 42 immediately ends stopped with
result 42 and its future resolved with 42; however the success callback
registered through add_callback is never invoked and the errback
registered through add_errback is invoked with an AttributeError, because
both wrappers call the nonexistent method get_result on the future. -/
theorem c3_noop_task_callback_bug :
    task_status (run taskCls noop_main (start initState)) = ThreadStatus.stopped ∧
    (run taskCls noop_main (start initState)).result = some 42 ∧
    (run taskCls noop_main (start initState)).futureResolved
      = some (Except.ok (some 42)) ∧
    add_callback_invocation (Except.ok (some 42)) = none ∧
    add_errback_invocation (Except.ok (some 42)) = some Exc.attributeError := by
  decide

/-- Claim C4: when expiry is detected the onThreadStop hook does mark
expired, but the value returned by the onExpiry hook does not become the
captured result: the run wrapper discards the return value of
onThreadStop, leaving the result None and resolving the future with None
even though onExpiry returned 42. -/
theorem c4_on_expiry_result_discarded :
    (run (expiringCls 0 on_expiry_42) noop_main (start initState)).expired = true ∧
    (run (expiringCls 0 on_expiry_42) noop_main (start initState)).result = none ∧
    (run (expiringCls 0 on_expiry_42) noop_main (start initState)).futureResolved
      = some (Except.ok none) ∧
    ¬ ((run (expiringCls 0 on_expiry_42) noop_main (start initState)).result = some 42) := by
  decide

/-- Claim C5 counterexample: with the deadline five units away, a sleep of
ten units activates the clamp; when the underlying wait observes a stop
request during the sleep, the generic stop signal is raised, not the
expired signal the claim promises. -/
theorem c5_counterexample :
    (expiring_sleep c5_state true 10).2 = Except.error Exc.threadStop ∧
    ¬ ((expiring_sleep c5_state true 10).2 = Except.error Exc.expired) := by
  decide

/-- Claim C5 amended: the expiring sleep raises expired immediately when
the deadline has already passed; otherwise, when the requested timeout
overshoots the deadline, it clamps the wait so the clock never passes the
deadline and raises expired after waking only if the underlying wait did
not observe a stop request; if the stop flag was already set or gets set
during the clamped wait, the generic stop signal is raised instead of
expired. -/
theorem c5_amended (s : TState) (timeout : Int) (stopDuring : Bool) :
    (s.expiry ≤ s.nowT → expiring_sleep s stopDuring timeout = (s, Except.error Exc.expired)) ∧
    (s.nowT < s.expiry → timeout > s.expiry - s.nowT → s.stoppingEvent = false →
      stopDuring = false →
      (expiring_sleep s stopDuring timeout).2 = Except.error Exc.expired ∧
      (expiring_sleep s stopDuring timeout).1.nowT = s.expiry) ∧
    (s.nowT < s.expiry → timeout > s.expiry - s.nowT →
      (s.stoppingEvent = true ∨ stopDuring = true) →
      (expiring_sleep s stopDuring timeout).2 = Except.error Exc.threadStop) := by
  refine ⟨?_, ?_, ?_⟩
  · intro hpast
    simp [expiring_sleep, check_expiry, hpast]
  · intro hfut hclamp hflag hdur
    have hmax : max 0 (s.expiry - s.nowT) = s.expiry - s.nowT := by omega
    have hnp : ¬ (s.expiry ≤ s.nowT) := by omega
    simp [expiring_sleep, check_expiry, thread_sleep, hnp, hclamp, hflag, hdur, hmax]
  · intro hfut hclamp hstop
    have hnp : ¬ (s.expiry ≤ s.nowT) := by omega
    rcases hstop with hstop | hstop
    · simp [expiring_sleep, check_expiry, thread_sleep, hnp, hclamp, hstop]
    · by_cases hflag : s.stoppingEvent = true
      · simp [expiring_sleep, check_expiry, thread_sleep, hnp, hclamp, hflag]
      · simp only [Bool.not_eq_true] at hflag
        simp [expiring_sleep, check_expiry, thread_sleep, hnp, hclamp, hflag, hstop]

/-- Claim C5 witness: concrete clamped sleeps five units before a
deadline: without a stop the sleep ends in the expired signal, with a stop
observed during the wait it ends in the generic stop signal. -/
theorem c5_witness :
    (expiring_sleep c5_state false 10).2 = Except.error Exc.expired ∧
    (expiring_sleep c5_state true 10).2 = Except.error Exc.threadStop :=
  ⟨((c5_amended c5_state 10 false).2.1 (by decide) (by decide) rfl rfl).1,
   (c5_amended c5_state 10 true).2.2 (by decide) (by decide) (Or.inr rfl)⟩

/-- Claim C6: a daemon thread that reaches its terminal state has the
premature-exit flag set exactly when no stop was requested before it
exited, whatever the body did (normal return, an uncaught error, or a
stop signal). -/
theorem daemon_finish_premature (s1 : TState) (out : Sum (Option Int) Exc)
    (hst : s1.started = true) (had : s1.aliveDone = false)
    (hpm : s1.prematureExit = false) :
    (run_finish daemonCls (s1, out)).prematureExit
      = ! (run_finish daemonCls (s1, out)).stoppingEvent := by
  rcases out with r | e
  · by_cases hse : s1.stoppingEvent = true
    · simp [run_finish, daemonCls, baseCls, daemon_on_exit, is_stopping, is_alive,
        hst, had, hpm, hse]
    · simp only [Bool.not_eq_true] at hse
      by_cases hsr : s1.stopReason = none <;>
        simp [run_finish, daemonCls, baseCls, daemon_on_exit, is_stopping, is_alive,
          hst, had, hpm, hse, hsr]
  · by_cases hts : isThreadStop e = true
    · by_cases hse : s1.stoppingEvent = true
      · simp [run_finish, daemonCls, baseCls, daemon_on_exit, is_stopping, is_alive,
          hst, had, hpm, hse, hts]
      · simp only [Bool.not_eq_true] at hse
        by_cases hsr : s1.stopReason = none <;>
          simp [run_finish, daemonCls, baseCls, daemon_on_exit, is_stopping, is_alive,
            hst, had, hpm, hse, hsr, hts]
    · simp only [Bool.not_eq_true] at hts
      by_cases hse : s1.stoppingEvent = true
      · simp [run_finish, daemonCls, baseCls, daemon_on_exit, is_stopping, is_alive,
          hst, had, hpm, hse, hts]
      · simp only [Bool.not_eq_true] at hse
        by_cases hsr : s1.stopReason = none <;>
          simp [run_finish, daemonCls, baseCls, daemon_on_exit, is_stopping, is_alive,
            hst, had, hpm, hse, hsr, hts]

/-- Claim C6: a daemon thread that reaches its terminal state has the
premature-exit flag set exactly when no stop was requested before it
exited, whatever the body did (normal return, an uncaught error, or a
stop signal). -/
theorem c6_premature_exit_iff_no_stop (s0 : TState)
    (mainF : TState → TState × Except Exc (Option Int))
    (h0 : s0.prematureExit = false) (ha : s0.aliveDone = false)
    (hp : preserves_lifecycle mainF) :
    (run daemonCls mainF (start s0)).prematureExit
      = ! (run daemonCls mainF (start s0)).stoppingEvent := by
  obtain ⟨hst, had, hpm⟩ := hp (start s0)
  rw [run]
  by_cases hflag : (start s0).stoppingEvent = true
  · have hb : run_body daemonCls mainF (start s0) = (start s0, Sum.inl none) := by
      simp [run_body, daemonCls, baseCls, hflag]
    rw [hb]
    exact daemon_finish_premature (start s0) (Sum.inl none) rfl ha h0
  · simp only [Bool.not_eq_true] at hflag
    rcases hmf : mainF (start s0) with ⟨s1, out⟩
    rw [hmf] at hst had hpm
    rcases out with e | r
    · have hb : run_body daemonCls mainF (start s0) = (s1, Sum.inr e) := by
        simp [run_body, daemonCls, baseCls, hflag, hmf]
      rw [hb]
      exact daemon_finish_premature s1 (Sum.inr e) (hst.trans rfl) (had.trans ha)
        (hpm.trans h0)
    · have hb : run_body daemonCls mainF (start s0) = (s1, Sum.inl r) := by
        simp [run_body, daemonCls, baseCls, hflag, hmf]
      rw [hb]
      exact daemon_finish_premature s1 (Sum.inl r) (hst.trans rfl) (had.trans ha)
        (hpm.trans h0)

/-- Claim C6 witness: a daemon whose body returns without any stop request
is flagged as a premature exit. -/
theorem c6_witness :
    (run daemonCls (fun s => (s, Except.ok none)) (start initState)).prematureExit
      = ! (run daemonCls (fun s => (s, Except.ok none)) (start initState)).stoppingEvent :=
  c6_premature_exit_iff_no_stop initState (fun s => (s, Except.ok none)) rfl rfl
    (fun _ => ⟨rfl, rfl, rfl⟩)

/-- Claim C7: cancelling a TaskThread before start makes the started unit
take the stop-before-start path: the outcome does not depend on the main
body or the on-enter hook (neither runs), and the thread terminates
cancelled with a CancelledError. -/
theorem c7_cancel_before_start (s0 : TState) (r : Option String)
    (oe : TState → TState × Except Exc Unit)
    (mf mf2 : TState → TState × Except Exc (Option Int))
    (hns : s0.started = false) (hflag : s0.stoppingEvent = false) :
    run { taskCls with onEnter := oe } mf (start (cancel s0 r))
      = run { taskCls with onEnter := oe } mf2 (start (cancel s0 r)) ∧
    task_status (run { taskCls with onEnter := oe } mf (start (cancel s0 r)))
      = ThreadStatus.cancelled ∧
    (run { taskCls with onEnter := oe } mf (start (cancel s0 r))).exception
      = some Exc.cancelledError := by
  have hc : (cancel s0 r).stoppingEvent = true := by
    simp [cancel, request_stop, is_stopped, is_started, is_alive, hns, hflag]
  simp [run, run_body, run_finish, taskCls, baseCls, task_status, is_cancelled,
    is_stopped, is_started, is_alive, start, isThreadStop, hc, cancel, request_stop,
    hns, hflag]

/-- Claim C7 witness: a concrete task cancelled before start terminates
cancelled independently of its body. -/
theorem c7_witness :
    task_status (run { taskCls with onEnter := fun s => (s, Except.ok ()) }
      (fun s => (s, Except.ok (some 1))) (start (cancel initState (some "x"))))
        = ThreadStatus.cancelled ∧
    (run { taskCls with onEnter := fun s => (s, Except.ok ()) }
      (fun s => (s, Except.ok (some 1))) (start (cancel initState (some "x")))).exception
        = some Exc.cancelledError :=
  ⟨(c7_cancel_before_start initState (some "x") (fun s => (s, Except.ok ()))
      (fun s => (s, Except.ok (some 1))) (fun s => (s, Except.ok (some 2))) rfl rfl).2.1,
   (c7_cancel_before_start initState (some "x") (fun s => (s, Except.ok ()))
      (fun s => (s, Except.ok (some 1))) (fun s => (s, Except.ok (some 2))) rfl rfl).2.2⟩

/-- Claim C8: in an event-loop iteration, an exception raised by the
event reader propagates to the daemon loop and is routed to the generic
onError policy; an exception raised while handling a produced event is
routed to the per-event onEventError policy; a None event skips handling
and returns control to the loop. -/
theorem c8_event_loop_error_routing (s : TState) (ev : Nat) (e : Exc)
    (handleEv : TState → Nat → TState × Except Exc Unit)
    (onEventError : TState → Nat → Exc → TState × Except Exc Unit)
    (onError : TState → Exc → TState × Except Exc Unit)
    (he : isThreadStop e = false) :
    daemon_iter_guard
        (event_main_iter (fun s1 => (s1, Except.error e)) handleEv onEventError)
        onError s
      = onError s e ∧
    event_main_iter (fun s1 => (s1, Except.ok (some ev)))
        (fun s1 _ => (s1, Except.error e)) onEventError s
      = onEventError s ev e ∧
    event_main_iter (fun s1 => (s1, Except.ok none)) handleEv onEventError s
      = (s, Except.ok ()) := by
  refine ⟨?_, ?_, rfl⟩
  · simp [daemon_iter_guard, event_main_iter, he]
  · simp [event_main_iter, he]

/-- Claim C8 witness: the routing equations at a concrete state, event
and error, with concrete policies. -/
theorem c8_witness :
    daemon_iter_guard
        (event_main_iter (fun s1 => (s1, Except.error (Exc.other 3)))
          (fun s1 _ => (s1, Except.ok ()))
          (fun s1 _ _ => (s1, Except.ok ())))
        (fun s1 _ => ({ s1 with nowT := 1 }, Except.ok ())) initState
      = ({ initState with nowT := 1 }, Except.ok ()) ∧
    event_main_iter (fun s1 => (s1, Except.ok (some 5)))
        (fun s1 _ => (s1, Except.error (Exc.other 3)))
        (fun s1 _ _ => ({ s1 with nowT := 2 }, Except.ok ())) initState
      = ({ initState with nowT := 2 }, Except.ok ()) ∧
    event_main_iter (fun s1 => (s1, Except.ok none))
        (fun s1 _ => (s1, Except.ok ()))
        (fun s1 _ _ => (s1, Except.ok ())) initState
      = (initState, Except.ok ()) := by
  refine ⟨?_, ?_, ?_⟩
  · exact (c8_event_loop_error_routing initState 5 (Exc.other 3)
      (fun s1 _ => (s1, Except.ok ())) (fun s1 _ _ => (s1, Except.ok ()))
      (fun s1 _ => ({ s1 with nowT := 1 }, Except.ok ())) rfl).1
  · exact (c8_event_loop_error_routing initState 5 (Exc.other 3)
      (fun s1 _ => (s1, Except.ok ()))
      (fun s1 _ _ => ({ s1 with nowT := 2 }, Except.ok ()))
      (fun s1 _ => ({ s1 with nowT := 1 }, Except.ok ())) rfl).2.1
  · exact (c8_event_loop_error_routing initState 5 (Exc.other 3)
      (fun s1 _ => (s1, Except.ok ())) (fun s1 _ _ => (s1, Except.ok ()))
      (fun s1 _ => ({ s1 with nowT := 1 }, Except.ok ())) rfl).2.2

/-- Claim C9: after a TaskThread terminates, is_cancelled reflects exactly
the stop flag, independently of the captured exception; in particular a
limited-time task that is cancelled during its run but whose checkpoint
observes expiry first terminates with status cancelled while its exception
is None and its expired flag is set. -/
theorem c9_is_cancelled_tracks_stop_flag (s0 : TState)
    (mainF : TState → TState × Except Exc (Option Int))
    (hp : preserves_lifecycle mainF) :
    is_cancelled (run taskCls mainF (start s0))
      = (run taskCls mainF (start s0)).stoppingEvent ∧
    task_status (run (limitedTimeCls 5) c9_main (start initState))
      = ThreadStatus.cancelled ∧
    (run (limitedTimeCls 5) c9_main (start initState)).exception = none ∧
    (run (limitedTimeCls 5) c9_main (start initState)).expired = true := by
  refine ⟨?_, by decide, by decide, by decide⟩
  obtain ⟨hst, had, hpm⟩ := hp (start s0)
  rw [run]
  by_cases hflag : (start s0).stoppingEvent = true
  · have hb : run_body taskCls mainF (start s0) = (start s0, Sum.inr Exc.threadStop) := by
      simp [run_body, taskCls, baseCls, hflag]
    rw [hb]
    simp [run_finish, taskCls, baseCls, isThreadStop, is_cancelled, is_stopped,
      is_started, is_alive, start, hflag]
  · simp only [Bool.not_eq_true] at hflag
    rcases hmf : mainF (start s0) with ⟨s1, out⟩
    rw [hmf] at hst had hpm
    have hst1 : s1.started = true := hst.trans rfl
    rcases out with e | r
    · have hb : run_body taskCls mainF (start s0) = (s1, Sum.inr e) := by
        simp [run_body, taskCls, baseCls, hflag, hmf]
      rw [hb]
      by_cases hts : isThreadStop e = true
      · simp [run_finish, taskCls, baseCls, hts, is_cancelled, is_stopped,
          is_started, is_alive, hst1]
      · simp only [Bool.not_eq_true] at hts
        simp [run_finish, taskCls, baseCls, hts, is_cancelled, is_stopped,
          is_started, is_alive, hst1]
    · have hb : run_body taskCls mainF (start s0) = (s1, Sum.inl r) := by
        simp [run_body, taskCls, baseCls, hflag, hmf]
      rw [hb]
      simp [run_finish, taskCls, baseCls, is_cancelled, is_stopped,
        is_started, is_alive, hst1]

/-- Claim C9 witness: the flag equation at a concrete body that requests a
stop and then returns normally, so the captured exception is not a
CancelledError yet the thread counts as cancelled. -/
theorem c9_witness :
    is_cancelled (run taskCls (fun s => (request_stop s (some "x"), Except.ok (some 1)))
        (start initState))
      = (run taskCls (fun s => (request_stop s (some "x"), Except.ok (some 1)))
          (start initState)).stoppingEvent :=
  (c9_is_cancelled_tracks_stop_flag initState
    (fun s => (request_stop s (some "x"), Except.ok (some 1)))
    (fun _ => ⟨rfl, rfl, rfl⟩)).1

/-- Claim C10: a stop signal raised by the iteration hook is re-raised by
the daemon loop guard without consulting the onError policy, and a stop
signal raised by the event handler is re-raised by the event-loop
iteration without consulting the onEventError policy; composed, it comes
out of both layers, so a subclass error policy can never swallow a
cooperative stop or expiry. -/
theorem c10_stop_signal_reraised (s : TState) (e : Exc) (ev : Nat)
    (onError : TState → Exc → TState × Except Exc Unit)
    (onEventError : TState → Nat → Exc → TState × Except Exc Unit)
    (hstop : isThreadStop e = true) :
    daemon_iter_guard (fun s1 => (s1, Except.error e)) onError s
      = (s, Except.error e) ∧
    event_main_iter (fun s1 => (s1, Except.ok (some ev)))
        (fun s1 _ => (s1, Except.error e)) onEventError s
      = (s, Except.error e) ∧
    daemon_iter_guard
        (event_main_iter (fun s1 => (s1, Except.ok (some ev)))
          (fun s1 _ => (s1, Except.error e)) onEventError)
        onError s
      = (s, Except.error e) := by
  refine ⟨?_, ?_, ?_⟩
  · simp [daemon_iter_guard, hstop]
  · simp [event_main_iter, hstop]
  · simp [daemon_iter_guard, event_main_iter, hstop]

/-- Claim C10 witness: both the plain stop signal and its expired variant
are re-raised through both loop layers at a concrete state and concrete
error policies. -/
theorem c10_witness :
    daemon_iter_guard
        (event_main_iter (fun s1 => (s1, Except.ok (some 4)))
          (fun s1 _ => (s1, Except.error Exc.expired))
          (fun s1 _ _ => ({ s1 with nowT := 2 }, Except.ok ())))
        (fun s1 _ => ({ s1 with nowT := 1 }, Except.ok ())) initState
      = (initState, Except.error Exc.expired) ∧
    daemon_iter_guard (fun s1 => (s1, Except.error Exc.threadStop))
        (fun s1 _ => ({ s1 with nowT := 1 }, Except.ok ())) initState
      = (initState, Except.error Exc.threadStop) :=
  ⟨(c10_stop_signal_reraised initState Exc.expired 4
      (fun s1 _ => ({ s1 with nowT := 1 }, Except.ok ()))
      (fun s1 _ _ => ({ s1 with nowT := 2 }, Except.ok ())) rfl).2.2,
   (c10_stop_signal_reraised initState Exc.threadStop 4
      (fun s1 _ => ({ s1 with nowT := 1 }, Except.ok ()))
      (fun s1 _ _ => ({ s1 with nowT := 2 }, Except.ok ())) rfl).1⟩

end Merethread
